import Mathlib

/-!
Shallow embedding of the soul-guardian backend authentication core: the
token codec (src/utils/jwt.ts), the identity-resolver middleware
(src/_app/auth.ts), the logout route (src/api/auth/index.ts), the photo
ownership check (src/api/avatar/index.ts) and the SQL escaping helpers
(src/utils/sql.ts). External collaborators — the jose HMAC primitive, the
WorkOS bearer verifier and session unsealer, and the database upsert call —
enter as explicit function parameters, following the capability interfaces
described in the specification.
-/

namespace SoulGuardian

/-- Error outcomes of the token codec in src/utils/jwt.ts: the weak-secret
guard, the ERR_JWT_EXPIRED branch, and the catch-all invalid branch. -/
inductive JwtError where
  | weakSecret
  | expired
  | invalid
deriving DecidableEq, Repr

/-- Message text of each error thrown by src/utils/jwt.ts. -/
def JwtError.message : JwtError → String
  | .weakSecret => "JWT secret must be at least 32 characters long"
  | .expired => "Token has expired"
  | .invalid => "Invalid token"

/-- JWTPayload interface of src/utils/jwt.ts. -/
structure JWTPayload where
  sub : String
  email : Option String := none
  firstName : Option String := none
  lastName : Option String := none
  iat : Option Nat := none
  exp : Option Nat := none
deriving DecidableEq, Repr

/-- Argument record of createJWT in src/utils/jwt.ts. -/
structure UserData where
  userId : String
  email : Option String := none
  firstName : Option String := none
  lastName : Option String := none
deriving DecidableEq, Repr

/-- JS truthiness filter used by createJWT: a guard such as
`if (userData.email) payload.email = userData.email` copies the field only
when it is present and not the empty string. -/
def presentNonEmpty : Option String → Option String
  | some s => if s = "" then none else some s
  | none => none

/-- Compact JWS produced by jose SignJWT: protected-header algorithm, the
signed payload, and the MAC signature over the signing input. -/
structure SignedToken where
  alg : String
  payload : JWTPayload
  sig : String
deriving DecidableEq, Repr

/-- Rendering of an optional string claim inside the signing input. -/
def encodeOptStr : Option String → String
  | none => "-"
  | some s => "+" ++ toString s.length ++ ":" ++ s

/-- Rendering of an optional numeric claim inside the signing input. -/
def encodeOptNat : Option Nat → String
  | none => "-"
  | some n => "+" ++ toString n

/-- Serialization of header and payload that the MAC is computed over,
standing for base64url(header) "." base64url(payload) of the compact JWS. -/
def signingInput (alg : String) (p : JWTPayload) : String :=
  "alg=" ++ alg ++ ".sub=" ++ p.sub ++ ",email=" ++ encodeOptStr p.email ++
    ",firstName=" ++ encodeOptStr p.firstName ++ ",lastName=" ++
    encodeOptStr p.lastName ++ ",iat=" ++ encodeOptNat p.iat ++ ",exp=" ++
    encodeOptNat p.exp

/-- JWT_EXPIRY of src/utils/jwt.ts, the 24h TTL, in seconds. -/
def jwtExpirySeconds : Nat := 24 * 60 * 60

/-- Embedding of createJWT in src/utils/jwt.ts. The jose HMAC primitive is
passed in as the deterministic keyed function mac; now is the wall clock in
seconds. The weak-secret guard (`!secret || secret.length < 32`) runs first;
optional fields pass through the JS truthiness guard; setIssuedAt and
setExpirationTime set iat = now and exp = now + 24h. -/
def createJWT (mac : String → String → String) (now : Nat)
    (userData : UserData) (secret : String) : Except JwtError SignedToken :=
  if secret.length < 32 then
    .error .weakSecret
  else
    let payload : JWTPayload :=
      { sub := userData.userId
        email := presentNonEmpty userData.email
        firstName := presentNonEmpty userData.firstName
        lastName := presentNonEmpty userData.lastName
        iat := some now
        exp := some (now + jwtExpirySeconds) }
    .ok { alg := "HS256", payload := payload,
          sig := mac secret (signingInput "HS256" payload) }

/-- Embedding of verifyJWT in src/utils/jwt.ts. After the weak-secret guard,
jose jwtVerify restricted to HS256 checks the header algorithm, then the
signature, then the exp claim; ERR_JWT_EXPIRED maps to JwtError.expired and
every other failure to JwtError.invalid. -/
def verifyJWT (mac : String → String → String) (now : Nat)
    (token : SignedToken) (secret : String) : Except JwtError JWTPayload :=
  if secret.length < 32 then
    .error .weakSecret
  else if token.alg ≠ "HS256" then
    .error .invalid
  else if token.sig ≠ mac secret (signingInput token.alg token.payload) then
    .error .invalid
  else
    match token.payload.exp with
    | some e => if e ≤ now then .error .expired else .ok token.payload
    | none => .ok token.payload

/-- Decidable equality on Except, used to evaluate closed codec results. -/
instance {ε α : Type} [DecidableEq ε] [DecidableEq α] :
    DecidableEq (Except ε α) := fun x y =>
  match x, y with
  | .ok a, .ok b =>
      if h : a = b then .isTrue (by rw [h])
      else .isFalse (fun hh => by cases hh; exact h rfl)
  | .ok _, .error _ => .isFalse (fun hh => by cases hh)
  | .error _, .ok _ => .isFalse (fun hh => by cases hh)
  | .error a, .error b =>
      if h : a = b then .isTrue (by rw [h])
      else .isFalse (fun hh => by cases hh; exact h rfl)

/-- Concrete deterministic keyed function standing in for HMAC-SHA256 in
witnesses and counterexamples. -/
def macDemo (secret msg : String) : String :=
  "mac[" ++ secret ++ "|" ++ msg ++ "]"

/-- Concrete 32-character secret for witnesses and counterexamples. -/
def secretDemo : String := "0123456789abcdef0123456789abcdef"

/-- JS String.startsWith on the character lists of the strings:
case-sensitive, exact text match at the front. -/
def jsStartsWith (s p : String) : Bool := p.data.isPrefixOf s.data

/-- JS String.substring from a character index to the end. -/
def jsSubstringFrom (s : String) (n : Nat) : String := String.mk (s.data.drop n)

/-- JS String.trim: whitespace removed from both ends. -/
def jsTrim (s : String) : String :=
  String.mk
    (((s.data.dropWhile Char.isWhitespace).reverse.dropWhile
        Char.isWhitespace).reverse)

/-- JS key.split at "/" taken at index 0: the segment of the key before the
first separator, the whole key when no separator occurs. -/
def firstSegment (key : String) : String :=
  String.mk (key.data.takeWhile (fun c => c ≠ '/'))

/-- Claims extracted from a WorkOS access token by jose jwtVerify against
the JWKS, with the fields read in src/_app/auth.ts lines 74 to 77. -/
structure BearerClaims where
  sub : String
  email : Option String := none
  first_name : Option String := none
  last_name : Option String := none
deriving DecidableEq, Repr

/-- User object of an authenticated WorkOS sealed session. -/
structure SessionUser where
  id : String
  email : Option String := none
  firstName : Option String := none
  lastName : Option String := none
deriving DecidableEq, Repr

/-- Context payload that the verify middleware stores under the jwt key on
success. -/
structure CtxPayload where
  sub : String
  email : Option String := none
  firstName : Option String := none
  lastName : Option String := none
deriving DecidableEq, Repr

/-- Outcome of the verify middleware: either the jwt context is set and the
chain continues, or a JSON error with an HTTP status is returned. -/
inductive AuthOutcome where
  | ok (payload : CtxPayload)
  | reject (msg : String) (status : Nat)
deriving DecidableEq, Repr

/-- Credential material of one inbound request, as read at the top of
verify: the Authorization header, the wos-session cookie and the auth_token
cookie. The auth_token cookie carries a token of the codec. -/
structure Request where
  authHeader : Option String := none
  sessionCookie : Option String := none
  customAuthToken : Option SignedToken := none
deriving Repr

/-- External collaborators and configuration of the verify middleware: the
codec MAC and wall clock, the WORKOS_COOKIE_PASSWORD secret, the WorkOS
JWKS verification of a bearer token (none on any jwtVerify failure), the
SMART_DB upsert call (false when executeQuery throws) and the
sealed-session authentication (none when it throws, reports not
authenticated, or has no user). -/
structure AuthEnv where
  mac : String → String → String
  now : Nat
  secret : String
  verifyBearer : String → Option BearerClaims
  upsert : String → Option String → Option String → Option String → Bool
  unsealSession : String → Option SessionUser

/-- Embedding of the wos-session block of verify (src/_app/auth.ts lines
106 to 158): try the sealed session, upsert the user, set the context; any
throw in the block yields the invalid-session rejection; with no session
cookie the final missing-authentication rejection is reached. -/
def sessionStep (env : AuthEnv) (req : Request) : AuthOutcome :=
  match req.sessionCookie with
  | some sc =>
      match env.unsealSession sc with
      | some user =>
          if env.upsert user.id user.email user.firstName user.lastName then
            .ok { sub := user.id, email := user.email,
                  firstName := user.firstName, lastName := user.lastName }
          else
            .reject "Unauthorized - Invalid session" 401
      | none => .reject "Unauthorized - Invalid session" 401
  | none => .reject "Unauthorized - Missing authentication" 401

/-- Embedding of the bearer block of verify (src/_app/auth.ts lines 52 to
104): entered when the Authorization header starts with the exact,
case-sensitive text "Bearer " followed by anything; an empty or
whitespace-only remainder returns the invalid-token 401; a failed JWKS
verification and a failed upsert both return the invalid-access-token 401,
since one try/catch covers the whole block; otherwise the context is set
from the bearer claims. With no matching header control continues with the
session cookie. -/
def bearerStep (env : AuthEnv) (req : Request) : AuthOutcome :=
  match req.authHeader with
  | some h =>
      if jsStartsWith h "Bearer " then
        let token := jsSubstringFrom h 7
        if token = "" ∨ jsTrim token = "" then
          .reject "Unauthorized - Invalid token" 401
        else
          match env.verifyBearer token with
          | some claims =>
              if env.upsert claims.sub claims.email claims.first_name
                  claims.last_name then
                .ok { sub := claims.sub, email := claims.email,
                      firstName := claims.first_name,
                      lastName := claims.last_name }
              else
                .reject "Unauthorized - Invalid access token" 401
          | none => .reject "Unauthorized - Invalid access token" 401
      else sessionStep env req
  | none => sessionStep env req

/-- Embedding of the verify middleware of src/_app/auth.ts: the auth_token
cookie is tried first through verifyJWT with the configured secret; on
success the context is set from the custom-token payload; on failure the
error is only logged and control falls through to the bearer block, then
to the session block, then to the missing-authentication rejection. -/
def verify (env : AuthEnv) (req : Request) : AuthOutcome :=
  match req.customAuthToken with
  | some tok =>
      match verifyJWT env.mac env.now tok env.secret with
      | .ok payload =>
          .ok { sub := payload.sub, email := payload.email,
                firstName := payload.firstName,
                lastName := payload.lastName }
      | .error _ => bearerStep env req
  | none => bearerStep env req

/-- Outcome of the ownership gate of GET /photo/:key in
src/api/avatar/index.ts before the bucket read is issued. -/
inductive PhotoOutcome where
  | badRequest
  | forbidden
  | allowed (key : String)
deriving DecidableEq, Repr

/-- Embedding of the key ownership check of GET /photo/:key
(src/api/avatar/index.ts lines 210 to 231): an empty key is a 400; the
segment before the first "/" of the key (JS key.split at index 0) must
equal the authenticated user id, otherwise a 403 Forbidden; only then is
the bucket read issued with the full key. -/
def photoKeyCheck (userId key : String) : PhotoOutcome :=
  if key = "" then .badRequest
  else
    let keyUserId := firstSegment key
    if keyUserId ≠ userId then .forbidden
    else .allowed key

/-- Cookie directive written by hono setCookie. -/
structure SetCookie where
  name : String
  value : String
  path : String
  httpOnly : Bool
  secure : Bool
  sameSite : Option String
  maxAge : Option Nat
deriving DecidableEq, Repr

/-- Request material of POST /auth/logout: the auth_token cookie, the
wos-session cookie and whether the request URL starts with https. -/
structure LogoutRequest where
  authToken : Option SignedToken := none
  wosSession : Option String := none
  isHttps : Bool := false
deriving Repr

/-- Outcome of POST /auth/logout: a JSON error with a status and the cookie
directives written so far, or success with the directives and an optional
WorkOS logout URL. -/
inductive LogoutResult where
  | reject (msg : String) (status : Nat) (cookies : List SetCookie)
  | success (cookies : List SetCookie) (workosLogoutUrl : Option String)
deriving DecidableEq, Repr

/-- Directive overwriting the auth_token cookie at logout with an empty
value and max-age 0. -/
def authTokenClear (isHttps : Bool) : SetCookie :=
  { name := "auth_token", value := "", path := "/", httpOnly := true,
    secure := isHttps, sameSite := some "Lax", maxAge := some 0 }

/-- Directive clearing the wos-session cookie at logout. -/
def wosSessionClear : SetCookie :=
  { name := "wos-session", value := "", path := "/", httpOnly := false,
    secure := false, sameSite := none, maxAge := some 0 }

/-- Embedding of POST /auth/logout (src/api/auth/index.ts lines 317 to
412). A missing auth_token cookie is a 401 with no cookie written; a
cookie that fails verifyJWT is a 401 with no cookie written; on a valid
cookie both clearing directives are written and the WorkOS logout URL is
computed from the wos-session cookie through getLogoutUrl, every failure
of which is caught, so the response is a success either way. -/
def logout (mac : String → String → String) (now : Nat) (secret : String)
    (getLogoutUrl : String → Option String) (req : LogoutRequest) :
    LogoutResult :=
  match req.authToken with
  | none => .reject "Not authenticated - already logged out" 401 []
  | some tok =>
      match verifyJWT mac now tok secret with
      | .error _ => .reject "Invalid or expired token" 401 []
      | .ok _ =>
          .success [authTokenClear req.isHttps, wosSessionClear]
            (req.wosSession.bind getLogoutUrl)

/-- Single-quote character, written by code point. -/
def sqlQuoteChar : Char := Char.ofNat 39

/-- Character-level form of the global regex replace in escapeSqlString:
every single quote of the value is doubled. -/
def escapeChars : List Char → List Char
  | [] => []
  | c :: cs =>
      if c = sqlQuoteChar then sqlQuoteChar :: sqlQuoteChar :: escapeChars cs
      else c :: escapeChars cs

/-- Embedding of escapeSqlString in src/utils/sql.ts: null or undefined
becomes the unquoted literal NULL, anything else is wrapped in single
quotes with every single quote of the value doubled. -/
def escapeSqlString : Option String → String
  | none => "NULL"
  | some v =>
      String.mk (sqlQuoteChar :: (escapeChars v.data ++ [sqlQuoteChar]))

/-- User row shape taken by buildUserUpsertQuery. -/
structure UserRow where
  id : String
  email : String
  firstName : Option String := none
  lastName : Option String := none
deriving DecidableEq, Repr

/-- Query text of buildUserUpsertQuery with the four already-escaped values
spliced into the template literal of src/utils/sql.ts. -/
def upsertTemplate (id email firstName lastName : String) : String :=
  "INSERT INTO users (id, email, first_name, last_name)\n          VALUES ("
    ++ id ++ ", " ++ email ++ ", " ++ firstName ++ ", " ++ lastName ++
    ")\n          ON CONFLICT(id) DO UPDATE SET\n            email = " ++
    email ++ ",\n            first_name = " ++ firstName ++
    ",\n            last_name = " ++ lastName

/-- Embedding of buildUserUpsertQuery in src/utils/sql.ts: each field value
reaches the query text only through escapeSqlString, with the JS
or-empty-string defaulting for the optional name fields. -/
def buildUserUpsertQuery (user : UserRow) : String :=
  upsertTemplate (escapeSqlString (some user.id))
    (escapeSqlString (some user.email))
    (escapeSqlString (some (user.firstName.getD "")))
    (escapeSqlString (some (user.lastName.getD "")))

/-- SQL string-literal lexer body, after the opening quote has been
consumed: a doubled quote stands for one quote of content, a lone quote
closes the literal, anything else is content; none on an unterminated
literal. -/
def lexAfterOpen : List Char → Option (List Char × List Char)
  | [] => none
  | c :: cs =>
      if c = sqlQuoteChar then
        match cs with
        | [] => some ([], [])
        | c2 :: cs2 =>
            if c2 = sqlQuoteChar then
              match lexAfterOpen cs2 with
              | some (v, r) => some (sqlQuoteChar :: v, r)
              | none => none
            else some ([], c2 :: cs2)
      else
        match lexAfterOpen cs with
        | some (v, r) => some (c :: v, r)
        | none => none

/-- SQL string-literal lexer: consumes one complete quoted literal from the
front of the character stream and returns its contents and the rest. -/
def lexSqlLiteral : List Char → Option (List Char × List Char)
  | [] => none
  | c :: cs => if c = sqlQuoteChar then lexAfterOpen cs else none

/-- Payload of the demo token: issued at 0, expiring at 86400. -/
def payloadDemo : JWTPayload :=
  { sub := "u1", iat := some 0, exp := some jwtExpirySeconds }

/-- Expired demo token, signed with macDemo and secretDemo. -/
def tokenDemo : SignedToken :=
  { alg := "HS256", payload := payloadDemo,
    sig := macDemo secretDemo (signingInput "HS256" payloadDemo) }

/-- Demo claims of a verified bearer token. -/
def claimsDemo : BearerClaims := { sub := "u2", email := some "u2@mail.example" }

/-- Demo user of an authenticated sealed session. -/
def sessionUserDemo : SessionUser := { id := "u3" }

/-- Demo environment in which bearer verification always fails, upsert
succeeds, sessions never unseal; the clock is past the demo-token expiry. -/
def envDemoA : AuthEnv :=
  { mac := macDemo, now := 200000, secret := secretDemo,
    verifyBearer := fun _ => none, upsert := fun _ _ _ _ => true,
    unsealSession := fun _ => none }

/-- Demo environment whose bearer verification accepts one good token and
whose upsert always fails. -/
def envDemoB : AuthEnv :=
  { mac := macDemo, now := 200000, secret := secretDemo,
    verifyBearer := fun t => if t = "goodtoken" then some claimsDemo else none,
    upsert := fun _ _ _ _ => false, unsealSession := fun _ => none }

/-- Demo environment whose bearer verification accepts one good token, whose
upsert succeeds, and whose session unsealing accepts one sealed cookie. -/
def envDemoC : AuthEnv :=
  { mac := macDemo, now := 200000, secret := secretDemo,
    verifyBearer := fun t => if t = "goodtoken" then some claimsDemo else none,
    upsert := fun _ _ _ _ => true,
    unsealSession := fun s => if s = "sealed" then some sessionUserDemo else none }

/-- C1 counterexample: with only the expired demo cookie present, the
custom-token verification fails with the expired error, yet resolution is
the generic missing-authentication rejection rather than a rejection naming
the expired carrier. -/
theorem c1_counterexample :
    verifyJWT envDemoA.mac envDemoA.now tokenDemo envDemoA.secret =
        .error .expired ∧
      verify envDemoA { customAuthToken := some tokenDemo } =
        .reject "Unauthorized - Missing authentication" 401 := by decide

/-- C1 (amended): for every request carrying only a custom auth_token
cookie whose token fails verification, with no bearer header and no
provider-session cookie, the resolver discards the custom-token failure and
falls through to the missing-credential rejection, 401 with message
"Unauthorized - Missing authentication". -/
theorem c1_expired_cookie_only_rejects_missing_auth
    (env : AuthEnv) (req : Request) (tok : SignedToken) (e : JwtError)
    (hc : req.customAuthToken = some tok)
    (hj : verifyJWT env.mac env.now tok env.secret = .error e)
    (ha : req.authHeader = none) (hs : req.sessionCookie = none) :
    verify env req = .reject "Unauthorized - Missing authentication" 401 := by
  simp [verify, bearerStep, sessionStep, hc, hj, ha, hs]

/-- Witness for c1_expired_cookie_only_rejects_missing_auth at the demo
environment and the expired demo cookie. -/
theorem c1_witness :
    verify envDemoA { customAuthToken := some tokenDemo } =
      .reject "Unauthorized - Missing authentication" 401 :=
  c1_expired_cookie_only_rejects_missing_auth envDemoA
    { customAuthToken := some tokenDemo } tokenDemo .expired rfl (by decide)
    rfl rfl

/-- C2 counterexample: in the demo environment the bearer token verifies
and the upsert call fails, yet resolution is the 401 credential rejection
of the bearer block, not a 500 persistence failure. -/
theorem c2_counterexample :
    envDemoB.verifyBearer "goodtoken" = some claimsDemo ∧
      (envDemoB.upsert claimsDemo.sub claimsDemo.email claimsDemo.first_name
          claimsDemo.last_name) = false ∧
      verify envDemoB { authHeader := some "Bearer goodtoken" } =
        .reject "Unauthorized - Invalid access token" 401 := by decide

/-- C2 (amended): in the bearer path, when the bearer token verifies
successfully and the synchronous user-upsert call fails, the single
try/catch of the bearer block surfaces the failure as HTTP 401
"Unauthorized - Invalid access token", not as a 500 persistence
failure. -/
theorem c2_upsert_failure_rejects_as_invalid_access_token
    (env : AuthEnv) (req : Request) (h bt : String) (claims : BearerClaims)
    (hc : req.customAuthToken = none)
    (ha : req.authHeader = some h)
    (hpre : jsStartsWith h "Bearer " = true)
    (htok : jsSubstringFrom h 7 = bt)
    (hne : ¬(bt = "" ∨ jsTrim bt = ""))
    (hv : env.verifyBearer bt = some claims)
    (hu : env.upsert claims.sub claims.email claims.first_name
        claims.last_name = false) :
    verify env req = .reject "Unauthorized - Invalid access token" 401 := by
  simp [verify, bearerStep, hc, ha, hpre, htok, hne, hv, hu]

/-- Witness for c2_upsert_failure_rejects_as_invalid_access_token at the
demo environment with a failing upsert. -/
theorem c2_witness :
    verify envDemoB { authHeader := some "Bearer goodtoken" } =
      .reject "Unauthorized - Invalid access token" 401 :=
  c2_upsert_failure_rejects_as_invalid_access_token envDemoB
    { authHeader := some "Bearer goodtoken" } "Bearer goodtoken" "goodtoken"
    claimsDemo rfl rfl (by decide) (by decide) (by decide) (by decide)
    (by decide)

/-- C4 (confirmed): for every request carrying a custom auth_token cookie
that fails verification together with a valid bearer token whose upsert
succeeds, the resolver discards the custom-token carrier and resolution
succeeds via the bearer path, attaching the identity extracted from the
bearer claims. -/
theorem c4_expired_cookie_valid_bearer_succeeds
    (env : AuthEnv) (req : Request) (tok : SignedToken) (e : JwtError)
    (h bt : String) (claims : BearerClaims)
    (hc : req.customAuthToken = some tok)
    (hj : verifyJWT env.mac env.now tok env.secret = .error e)
    (ha : req.authHeader = some h)
    (hpre : jsStartsWith h "Bearer " = true)
    (htok : jsSubstringFrom h 7 = bt)
    (hne : ¬(bt = "" ∨ jsTrim bt = ""))
    (hv : env.verifyBearer bt = some claims)
    (hu : env.upsert claims.sub claims.email claims.first_name
        claims.last_name = true) :
    verify env req =
      .ok { sub := claims.sub, email := claims.email,
            firstName := claims.first_name,
            lastName := claims.last_name } := by
  simp [verify, bearerStep, hc, hj, ha, hpre, htok, hne, hv, hu]

/-- Witness for c4_expired_cookie_valid_bearer_succeeds: the expired demo
cookie together with the good bearer token resolves to the bearer
identity. -/
theorem c4_witness :
    verify envDemoC
        { customAuthToken := some tokenDemo,
          authHeader := some "Bearer goodtoken" } =
      .ok { sub := "u2", email := some "u2@mail.example" } :=
  c4_expired_cookie_valid_bearer_succeeds envDemoC
    { customAuthToken := some tokenDemo,
      authHeader := some "Bearer goodtoken" }
    tokenDemo .expired "Bearer goodtoken" "goodtoken" claimsDemo rfl
    (by decide) rfl (by decide) (by decide) (by decide) (by decide)
    (by decide)

/-- C9 counterexample: with the header "Bearer   " (whitespace-only
remainder) and a session cookie that would authenticate, resolution fails
on the bearer path with the invalid-token 401 instead of proceeding to the
provider-session carrier, which would have succeeded. -/
theorem c9_counterexample :
    verify envDemoC
        { authHeader := some "Bearer   ", sessionCookie := some "sealed" } =
        .reject "Unauthorized - Invalid token" 401 ∧
      sessionStep envDemoC
        { authHeader := some "Bearer   ", sessionCookie := some "sealed" } =
        .ok { sub := "u3" } := by decide

/-- C9 (amended): the bearer block is entered exactly when the
Authorization header starts with the exact, case-sensitive text "Bearer ";
a non-matching header falls to the session block, but a matching header
whose remainder is empty or whitespace-only fails on the bearer path with
401 "Unauthorized - Invalid token" instead of proceeding to the
provider-session carrier or the missing-credential rejection. -/
theorem c9_bearer_extraction
    (env : AuthEnv) (req : Request) (h : String)
    (hc : req.customAuthToken = none)
    (ha : req.authHeader = some h) :
    (jsStartsWith h "Bearer " = false → verify env req = sessionStep env req)
    ∧ (jsStartsWith h "Bearer " = true →
        (jsSubstringFrom h 7 = "" ∨ jsTrim (jsSubstringFrom h 7) = "") →
        verify env req = .reject "Unauthorized - Invalid token" 401) := by
  constructor
  · intro hpre
    simp [verify, bearerStep, hc, ha, hpre]
  · intro hpre hblank
    simp [verify, bearerStep, hc, ha, hpre, hblank]

/-- Witness for c9_bearer_extraction: a lowercase header falls through to
the session block, and the header "Bearer   " is rejected on the bearer
path. -/
theorem c9_witness :
    (verify envDemoC
        { authHeader := some "bearer x", sessionCookie := some "sealed" } =
      sessionStep envDemoC
        { authHeader := some "bearer x", sessionCookie := some "sealed" })
    ∧ verify envDemoC
        { authHeader := some "Bearer   ", sessionCookie := some "sealed" } =
      .reject "Unauthorized - Invalid token" 401 :=
  ⟨(c9_bearer_extraction envDemoC
      { authHeader := some "bearer x", sessionCookie := some "sealed" }
      "bearer x" rfl rfl).1 (by decide),
   (c9_bearer_extraction envDemoC
      { authHeader := some "Bearer   ", sessionCookie := some "sealed" }
      "Bearer   " rfl rfl).2 (by decide) (by decide)⟩

/-- Claims record with an empty-string email, exercising the JS truthiness
guard of createJWT. -/
def userDataBlank : UserData := { userId := "u1", email := some "" }

/-- Claims record with non-empty optional fields. -/
def userDataDemo : UserData :=
  { userId := "u1", email := some "u1@mail.example", firstName := some "Ada" }

/-- C3 counterexample: issuing with an empty-string email and verifying
with the same secret succeeds but returns no email at all, so the
round-trip does not return the issued claims for this claims record. -/
theorem c3_counterexample :
    ((createJWT macDemo 1000 userDataBlank secretDemo).bind
        (fun tok => verifyJWT macDemo 1000 tok secretDemo)).map
        (fun p => p.email) = .ok none
      ∧ userDataBlank.email = some "" := by decide

/-- Identity of the truthiness filter on fields that are not the empty
string. -/
theorem presentNonEmpty_eq_self (o : Option String) (h : o ≠ some "") :
    presentNonEmpty o = o := by
  cases o with
  | none => rfl
  | some s =>
      have hs : ¬(s = "") := fun hh => h (by rw [hh])
      simp [presentNonEmpty, hs]

/-- C3 (amended): for every claims record whose optional fields, when
present, are non-empty, and every secret of length at least 32, verifying
at the same clock a token issued with those claims and that secret
succeeds and returns the same sub, email, firstName and lastName, with
iat = now and exp = now + 24h. The restriction to non-empty optional
fields is forced by the JS truthiness guard of createJWT, which silently
drops empty-string fields. -/
theorem c3_roundtrip
    (mac : String → String → String) (now : Nat) (data : UserData)
    (secret : String) (hs : 32 ≤ secret.length)
    (he : data.email ≠ some "") (hf : data.firstName ≠ some "")
    (hl : data.lastName ≠ some "") :
    ∃ tok, createJWT mac now data secret = .ok tok ∧
      verifyJWT mac now tok secret = .ok
        { sub := data.userId, email := data.email,
          firstName := data.firstName, lastName := data.lastName,
          iat := some now, exp := some (now + jwtExpirySeconds) } := by
  have hlen : ¬(secret.length < 32) := by omega
  have hexp : ¬(now + jwtExpirySeconds ≤ now) := by
    simp only [jwtExpirySeconds]
    omega
  refine ⟨{ alg := "HS256",
            payload := { sub := data.userId, email := data.email,
                         firstName := data.firstName,
                         lastName := data.lastName, iat := some now,
                         exp := some (now + jwtExpirySeconds) },
            sig := mac secret (signingInput "HS256"
              { sub := data.userId, email := data.email,
                firstName := data.firstName, lastName := data.lastName,
                iat := some now, exp := some (now + jwtExpirySeconds) }) },
          ?_, ?_⟩
  · simp [createJWT, hlen, presentNonEmpty_eq_self _ he,
      presentNonEmpty_eq_self _ hf, presentNonEmpty_eq_self _ hl]
  · simp [verifyJWT, hlen, hexp]

/-- Witness for c3_roundtrip at a concrete claims record, MAC, clock and
secret. -/
theorem c3_witness :
    ∃ tok, createJWT macDemo 1000 userDataDemo secretDemo = .ok tok ∧
      verifyJWT macDemo 1000 tok secretDemo = .ok
        { sub := userDataDemo.userId, email := userDataDemo.email,
          firstName := userDataDemo.firstName,
          lastName := userDataDemo.lastName, iat := some 1000,
          exp := some (1000 + jwtExpirySeconds) } :=
  c3_roundtrip macDemo 1000 userDataDemo secretDemo (by decide) (by decide)
    (by decide) (by decide)

/-- C7 (confirmed): for every secret shorter than 32 characters, createJWT
and verifyJWT both fail with the weak-secret error, and the result does
not depend on the MAC primitive, the clock, or the input, so no
cryptographic operation is attempted. -/
theorem c7_weak_secret (secret : String) (h : secret.length < 32) :
    (∀ (mac : String → String → String) (now : Nat) (data : UserData),
        createJWT mac now data secret = .error .weakSecret)
    ∧ (∀ (mac : String → String → String) (now : Nat) (tok : SignedToken),
        verifyJWT mac now tok secret = .error .weakSecret) := by
  refine ⟨fun mac now data => ?_, fun mac now tok => ?_⟩
  · simp [createJWT, h]
  · simp [verifyJWT, h]

/-- Witness for c7_weak_secret at the 5-character secret "short", covering
both the empty-data issue call and a verify call. -/
theorem c7_witness :
    createJWT macDemo 0 { userId := "u1" } "short" = .error .weakSecret
    ∧ verifyJWT macDemo 0 tokenDemo "short" = .error .weakSecret :=
  ⟨(c7_weak_secret "short" (by decide)).1 macDemo 0 { userId := "u1" },
   (c7_weak_secret "short" (by decide)).2 macDemo 0 tokenDemo⟩

/-- Demo token whose signature does not match the MAC of its signing
input. -/
def tokenBadSig : SignedToken :=
  { alg := "HS256", payload := payloadDemo, sig := "tampered" }

/-- C8 (confirmed): with a strong secret, a token whose signature is valid
under the secret but whose expiry is at or before the clock fails with the
expired error, while a token whose header algorithm is wrong or whose
signature does not match fails with the distinct invalid error; the two
errors carry the distinct messages of the source. -/
theorem c8_expired_vs_invalid
    (mac : String → String → String) (now : Nat) (secret : String)
    (tok : SignedToken) (e : Nat) (hs : 32 ≤ secret.length) :
    (tok.alg = "HS256" →
      tok.sig = mac secret (signingInput tok.alg tok.payload) →
      tok.payload.exp = some e → e ≤ now →
      verifyJWT mac now tok secret = .error .expired)
    ∧ ((tok.alg ≠ "HS256" ∨
          tok.sig ≠ mac secret (signingInput tok.alg tok.payload)) →
        verifyJWT mac now tok secret = .error .invalid)
    ∧ JwtError.message .expired = "Token has expired"
    ∧ JwtError.message .invalid = "Invalid token" := by
  have hlen : ¬(secret.length < 32) := by omega
  refine ⟨?_, ?_, rfl, rfl⟩
  · intro halg hsig hexp hle
    simp [verifyJWT, hlen, halg, hsig, hexp, hle]
  · intro hbad
    rcases hbad with hbad | hbad
    · simp [verifyJWT, hlen, hbad]
    · by_cases halg : tok.alg = "HS256"
      · rw [halg] at hbad
        simp [verifyJWT, hlen, halg, hbad]
      · simp [verifyJWT, hlen, halg]

/-- Witness for c8_expired_vs_invalid: the well-signed expired demo token
yields the expired error, and the tampered-signature token yields the
invalid error. -/
theorem c8_witness :
    verifyJWT macDemo 200000 tokenDemo secretDemo = .error .expired
    ∧ verifyJWT macDemo 200000 tokenBadSig secretDemo = .error .invalid :=
  ⟨(c8_expired_vs_invalid macDemo 200000 secretDemo tokenDemo
      jwtExpirySeconds (by decide)).1 rfl rfl rfl (by decide),
   (c8_expired_vs_invalid macDemo 200000 secretDemo tokenBadSig 0
      (by decide)).2.1 (Or.inr (by decide))⟩

/-- C5 counterexample: a key with no separator whose whole text equals the
identity id passes the ownership check and reaches the bucket read, so the
check does not fail closed on a missing separator. -/
theorem c5_counterexample :
    "u1".data.contains '/' = false
      ∧ photoKeyCheck "u1" "u1" = .allowed "u1" := by decide

/-- C5 (amended): the ownership check on photo reads takes the segment of
the storage key before its first "/" and denies with Forbidden whenever
that segment does not exactly equal the identity id; a key with no
separator is treated as being its own first segment, so it is allowed
exactly when the whole key equals the identity id, rather than being
denied unconditionally. -/
theorem c5_ownership_check (userId key : String) (hne : key ≠ "") :
    (firstSegment key ≠ userId → photoKeyCheck userId key = .forbidden)
    ∧ (firstSegment key = userId → photoKeyCheck userId key = .allowed key) := by
  refine ⟨fun hneq => ?_, fun heq => ?_⟩
  · simp [photoKeyCheck, hne, hneq]
  · simp [photoKeyCheck, hne, heq]

/-- Witness for c5_ownership_check at the two example keys of the
specification: the foreign key is denied with Forbidden and the own key is
allowed. -/
theorem c5_witness :
    photoKeyCheck "u1" "u2/2024-x.png" = .forbidden
    ∧ photoKeyCheck "u1" "u1/2024-x.png" = .allowed "u1/2024-x.png" :=
  ⟨(c5_ownership_check "u1" "u2/2024-x.png" (by decide)).1 (by decide),
   (c5_ownership_check "u1" "u1/2024-x.png" (by decide)).2 (by decide)⟩

/-- C6 (confirmed): logout with no auth_token cookie rejects 401 and writes
no cookie; logout with an auth_token that fails verification rejects 401
and writes no cookie; logout with a valid auth_token succeeds and writes
exactly the directive overwriting auth_token with an empty value and
max-age 0 and the directive clearing wos-session, independently of whether
the wos-session cookie parses (getLogoutUrl is arbitrary and its failures
are swallowed). -/
theorem c6_logout
    (mac : String → String → String) (now : Nat) (secret : String)
    (getLogoutUrl : String → Option String) (req : LogoutRequest) :
    (req.authToken = none →
      logout mac now secret getLogoutUrl req =
        .reject "Not authenticated - already logged out" 401 [])
    ∧ (∀ tok e, req.authToken = some tok →
        verifyJWT mac now tok secret = .error e →
        logout mac now secret getLogoutUrl req =
          .reject "Invalid or expired token" 401 [])
    ∧ (∀ tok p, req.authToken = some tok →
        verifyJWT mac now tok secret = .ok p →
        logout mac now secret getLogoutUrl req =
          .success [authTokenClear req.isHttps, wosSessionClear]
            (req.wosSession.bind getLogoutUrl))
    ∧ authTokenClear req.isHttps =
        { name := "auth_token", value := "", path := "/", httpOnly := true,
          secure := req.isHttps, sameSite := some "Lax", maxAge := some 0 }
    ∧ wosSessionClear =
        { name := "wos-session", value := "", path := "/",
          httpOnly := false, secure := false, sameSite := none,
          maxAge := some 0 } := by
  refine ⟨fun hnone => ?_, fun tok e htok hj => ?_, fun tok p htok hj => ?_,
    rfl, rfl⟩
  · simp [logout, hnone]
  · simp [logout, htok, hj]
  · simp [logout, htok, hj]

/-- Witness for c6_logout: no cookie rejects, the expired demo cookie
rejects, and the valid demo cookie succeeds with the two clearing
directives even though the wos-session value is garbage. -/
theorem c6_witness :
    logout macDemo 0 secretDemo (fun _ => none) {} =
        .reject "Not authenticated - already logged out" 401 []
    ∧ logout macDemo 200000 secretDemo (fun _ => none)
        { authToken := some tokenDemo } =
        .reject "Invalid or expired token" 401 []
    ∧ logout macDemo 1000 secretDemo (fun _ => none)
        { authToken := some tokenDemo, wosSession := some "garbage" } =
        .success [authTokenClear false, wosSessionClear] none :=
  ⟨(c6_logout macDemo 0 secretDemo (fun _ => none) {}).1 rfl,
   (c6_logout macDemo 200000 secretDemo (fun _ => none)
      { authToken := some tokenDemo }).2.1 tokenDemo .expired rfl (by decide),
   (c6_logout macDemo 1000 secretDemo (fun _ => none)
      { authToken := some tokenDemo, wosSession := some "garbage" }).2.2.1
      tokenDemo payloadDemo rfl (by decide)⟩

/-- Unfolding equation of the lexer body on a non-empty stream. -/
theorem lexAfterOpen_cons (c : Char) (cs : List Char) :
    lexAfterOpen (c :: cs) =
      if c = sqlQuoteChar then
        match cs with
        | [] => some ([], [])
        | c2 :: cs2 =>
            if c2 = sqlQuoteChar then
              match lexAfterOpen cs2 with
              | some (v, r) => some (sqlQuoteChar :: v, r)
              | none => none
            else some ([], c2 :: cs2)
      else
        match lexAfterOpen cs with
        | some (v, r) => some (c :: v, r)
        | none => none := by
  cases cs <;> rfl

/-- Soundness of the quote doubling against the literal lexer: after the
escaped value, the literal closes exactly at the closing quote the escaper
wrote, whatever the value contains, provided the following character is
not itself a quote. -/
theorem lexAfterOpen_escapeChars (v rest : List Char)
    (h : rest.head? ≠ some sqlQuoteChar) :
    lexAfterOpen (escapeChars v ++ (sqlQuoteChar :: rest)) = some (v, rest) := by
  induction v with
  | nil =>
      cases rest with
      | nil => simp [escapeChars, lexAfterOpen_cons]
      | cons r rs =>
          have hr : ¬(r = sqlQuoteChar) := by
            intro hh
            exact h (by simp [hh])
          simp [escapeChars, lexAfterOpen_cons, hr]
  | cons a as ih =>
      by_cases ha : a = sqlQuoteChar
      · subst ha
        simp [escapeChars, lexAfterOpen_cons, ih]
      · simp only [escapeChars, if_neg ha, List.cons_append, List.nil_append]
        rw [lexAfterOpen_cons, if_neg ha, ih]

/-- C10 (confirmed): escapeSqlString maps null and undefined to the
unquoted literal NULL and otherwise wraps the value in single quotes with
every single quote doubled, so that the SQL lexer reads back exactly the
original value and stops at the closing quote the escaper wrote — no value
can close the string literal early; and buildUserUpsertQuery embeds the
four user fields only through this escaping, with missing names defaulted
to the empty string. -/
theorem c10_sql_escaping (v : String) (rest : List Char) (u : UserRow)
    (h : rest.head? ≠ some sqlQuoteChar) :
    escapeSqlString none = "NULL"
    ∧ lexSqlLiteral ((escapeSqlString (some v)).data ++ rest) =
        some (v.data, rest)
    ∧ buildUserUpsertQuery u =
        upsertTemplate (escapeSqlString (some u.id))
          (escapeSqlString (some u.email))
          (escapeSqlString (some (u.firstName.getD "")))
          (escapeSqlString (some (u.lastName.getD ""))) := by
  refine ⟨rfl, ?_, rfl⟩
  have hdata : (escapeSqlString (some v)).data =
      sqlQuoteChar :: (escapeChars v.data ++ [sqlQuoteChar]) := rfl
  rw [hdata]
  simp only [lexSqlLiteral, if_pos rfl, List.cons_append]
  simpa [List.append_assoc] using lexAfterOpen_escapeChars v.data rest h

/-- Witness for c10_sql_escaping at a value containing a quote and a user
row containing a quote in the email, with a comma following the
literal. -/
theorem c10_witness :
    escapeSqlString none = "NULL"
    ∧ lexSqlLiteral ((escapeSqlString (some "a\x27b")).data ++ [',']) =
        some ("a\x27b".data, [','])
    ∧ buildUserUpsertQuery
        { id := "u1", email := "x\x27y@mail.example" } =
        upsertTemplate (escapeSqlString (some "u1"))
          (escapeSqlString (some "x\x27y@mail.example"))
          (escapeSqlString (some ((none : Option String).getD "")))
          (escapeSqlString (some ((none : Option String).getD ""))) :=
  c10_sql_escaping "a\x27b" [',']
    { id := "u1", email := "x\x27y@mail.example" } (by decide)

end SoulGuardian
